import Mathlib

/-!
Verification of the v6-summary-py two-round federated summary algorithm.

The development shallowly embeds the algorithm code:
* `partial_summary.py` (`summary_per_data_station`, `_check_privacy`,
  `_check_match_inferred_is_numeric`, `_get_numeric_summary`,
  `_get_categorical_summary`, `_get_counts_unique_values`, `_mask_privacy`),
* `partial_variance.py` (`variance_per_data_station` and its `_check_privacy`),
* `central.py` (`summary`, `_aggregate_partial_summaries`, `_add_sd_to_results`).

Data values are modelled over `ℚ` (pandas floats, exact arithmetic); a missing
value (NaN / None) in a data column is `Option.none`.  The tabular engine
(pandas) is external to the repository; its descriptive-statistics primitives
are modelled by their documented behaviour: `count`/`min`/`max`/`sum` skip
missing values, `isna().sum()` counts them, `value_counts` counts non-missing
occurrences.  The handful of places where the embedding must commit to engine
behaviour that matters for a claim (empty-frame row indexing raising KeyError,
IEEE division by zero, the frame constructor's diverging treatment of
record lists with and without null entries) are modelled explicitly and
noted at the definition.
-/

/-- A raw categorical cell value: the string as stored, together with the
numeric interpretation the engine's `pd.to_numeric` cast would give it
(`none` when the cast would raise).  The cast itself is an external engine
primitive, so it is carried as data rather than reimplemented. -/
structure CatVal where
  str : String
  numParse : Option ℚ
deriving DecidableEq, Repr

/-- A data column as the engine types it: a numeric (`int`/`float` dtype)
column of optional rationals, or an object-dtype column of optional raw
values.  `none` entries are missing values (NaN). -/
inductive Column where
  | num (vals : List (Option ℚ))
  | cat (vals : List (Option CatVal))
deriving DecidableEq, Repr

/-- A data-station partition: its row count and its named columns. -/
structure Df where
  numRows : ℕ
  cols : List (String × Column)
deriving DecidableEq, Repr

/-- Node privacy configuration, read from environment variables
(`globals.py`).  `allowVariance` models `SUMMARY_ALLOW_VARIANCE` from
`EnvVarsAllowed`; it is declared there but never read by any function in the
package. -/
structure Config where
  minRows : ℤ
  allowedColumns : Option (List String)
  disallowedColumns : Option (List String)
  privacyThreshold : ℤ
  allowVariance : Bool
deriving DecidableEq, Repr

/-- The error outcomes of the algorithm functions, one constructor per
distinct raise site / engine failure mode. -/
inductive AlgError where
  /-- `InputError`: requested columns absent from the dataframe. -/
  | unknownColumns (cols : List String)
  /-- `InputError` in `central.summary`: `numeric_columns` not a subset of
  `columns`; carries the offending columns. -/
  | inputSubset (cols : List String)
  /-- `InputError` in `variance_per_data_station`: `columns` and `means`
  have different lengths. -/
  | meansLengthMismatch
  /-- `ValueError`: `is_numeric` hint list length differs from `columns`. -/
  | lengthMismatch
  /-- `ValueError` from `_check_match_inferred_is_numeric`: first list is the
  hinted-numeric columns whose cast failed, second the columns hinted
  categorical but inferred numeric. -/
  | typeMismatch (castFailed : List String) (wrongNonNumeric : List String)
  /-- `PrivacyThresholdViolation` from `_check_privacy`. -/
  | privacyThreshold
  /-- `ValueError` from `_check_privacy`: allow/deny-list violation. -/
  | permissionDenied
  /-- `AlgorithmExecutionError` from `_aggregate_partial_summaries` on a
  `None` node result. -/
  | executionError
  /-- pandas `KeyError`: `.loc` row indexing on an empty frame
  (`_aggregate_partial_summaries` when the first node's part is empty). -/
  | keyError
  /-- Model boundary: pandas name-alignment of differently-keyed summaries
  is outside the embedding. -/
  | misaligned
  /-- Engine `TypeError`/`AttributeError`: arithmetic on an object-dtype
  column, or a round-2 response list mixing records and nulls (the record
  path chokes on a null, the plain path on a record; see
  `addSdToResults`). -/
  | engineError
deriving DecidableEq, Repr

/-- Non-missing values of a numeric column (what pandas `count`/`sum`/
`min`/`max` operate on after skipping NaN). -/
def nonMissing (l : List (Option ℚ)) : List ℚ :=
  l.filterMap id

/-- Minimum of a list, `none` when empty (pandas `min` of an all-NaN column
is NaN). -/
def listMin : List ℚ → Option ℚ
  | [] => none
  | x :: xs =>
    match listMin xs with
    | none => some x
    | some m => some (min x m)

/-- Maximum of a list, `none` when empty. -/
def listMax : List ℚ → Option ℚ
  | [] => none
  | x :: xs =>
    match listMax xs with
    | none => some x
    | some m => some (max x m)

/-- Per-column numeric summary shared by a node in round 1: the rows kept by
`_get_numeric_summary` after `describe` plus `missing` and `sum`
(`count`, `min`, `max`, `missing`, `sum`; `mean`/`std`/`50%` are dropped). -/
structure NumStats where
  count : ℕ
  min : Option ℚ
  max : Option ℚ
  missing : ℕ
  sum : ℚ
deriving DecidableEq, Repr

/-- Per-column categorical summary (`_get_categorical_summary`): non-missing
count and missing count (`top`/`freq`/`unique` are dropped). -/
structure CatStats where
  count : ℕ
  missing : ℕ
deriving DecidableEq, Repr

/-- `_get_numeric_summary` restricted to one column: `describe` count/min/max
over non-missing values, `isna().sum()` missing count, NaN-skipping sum. -/
def numColStats (l : List (Option ℚ)) : NumStats :=
  { count := (nonMissing l).length
    min := listMin (nonMissing l)
    max := listMax (nonMissing l)
    missing := l.countP Option.isNone
    sum := (nonMissing l).sum }

/-- `_get_categorical_summary` restricted to one column. -/
def catColStats (l : List (Option CatVal)) : CatStats :=
  { count := (l.filterMap id).length
    missing := l.countP Option.isNone }

/-- Pointwise min of optional values: pandas `concat(...).min(axis=1)` skips
NaN, so a missing side yields the other side. -/
def optMin : Option ℚ → Option ℚ → Option ℚ
  | none, b => b
  | some a, none => some a
  | some a, some b => some (min a b)

/-- Pointwise max of optional values, NaN-skipping. -/
def optMax : Option ℚ → Option ℚ → Option ℚ
  | none, b => b
  | some a, none => some a
  | some a, some b => some (max a b)

/-- The round-1 per-column reduction performed by
`_aggregate_partial_summaries` on numeric summaries: `count`, `missing`,
`sum` add; `min`/`max` combine NaN-skippingly. -/
def reduceNum (a b : NumStats) : NumStats :=
  { count := a.count + b.count
    min := optMin a.min b.min
    max := optMax a.max b.max
    missing := a.missing + b.missing
    sum := a.sum + b.sum }

/-- The round-1 per-column reduction on categorical summaries: `count` and
`missing` add. -/
def reduceCat (a b : CatStats) : CatStats :=
  { count := a.count + b.count
    missing := a.missing + b.missing }

/-- Folding the round-1 reduction over the per-node summaries of a list of
partitions, seeded with the first node's summary the way
`_aggregate_partial_summaries` does.  For the empty list it is the summary of
the empty column. -/
def globalNumStats (parts : List (List (Option ℚ))) : NumStats :=
  match parts.map numColStats with
  | [] => numColStats []
  | s :: ss => ss.foldl reduceNum s

/-! ### Round 2: per-node variance contribution and the pooled result -/

/-- One node's round-2 contribution for one column
(`partial_variance.variance_per_data_station`, line
`variances[column] = ((df[column] - mean) ** 2).sum()`): the sum over
non-missing rows of the squared deviation from the provided global mean
(NaN rows propagate through the subtraction and are skipped by `sum`). -/
def varianceContribution (l : List (Option ℚ)) (m : ℚ) : ℚ :=
  ((nonMissing l).map (fun x => (x - m) ^ 2)).sum

/-- The global mean the aggregator derives after round 1
(`_aggregate_partial_summaries`, `sum / count` on the reduced summary) and
passes to the nodes in the round-2 request. -/
def providedGlobalMean (parts : List (List (Option ℚ))) : ℚ :=
  (globalNumStats parts).sum / ((globalNumStats parts).count : ℚ)

/-- The aggregator's pooled sample variance for one column
(`_add_sd_to_results`: sum of the nodes' contributions divided by the global
count minus one; the standard deviation is its square root). -/
def pooledVariance (parts : List (List (Option ℚ))) : ℚ :=
  (parts.map (fun p => varianceContribution p (providedGlobalMean parts))).sum /
    (((globalNumStats parts).count : ℚ) - 1)

/-- Modelled from the spec: the single-machine sample variance of a column
(`sum((x - mean)^2) / (n - 1)` over the non-missing values, `mean` the
arithmetic mean), the reference value the two-round protocol is claimed to
reproduce. -/
def singleMachineVariance (l : List (Option ℚ)) : ℚ :=
  ((nonMissing l).map (fun x => (x - (nonMissing l).sum / ((nonMissing l).length : ℚ)) ^ 2)).sum /
    (((nonMissing l).length : ℚ) - 1)

/-! ### Dataframe operations -/

/-- Column selection `df[c]`. -/
def Df.lookupCol (df : Df) (c : String) : Option Column :=
  List.lookup c df.cols

/-- Membership test `c in df.columns`. -/
def Df.hasCol (df : Df) (c : String) : Bool :=
  (df.lookupCol c).isSome

/-- View restriction `df = df[columns]`: the requested columns, in request
order. -/
def Df.restrict (df : Df) (columns : List String) : Df :=
  ⟨df.numRows, columns.filterMap (fun c => (df.lookupCol c).map (fun col => (c, col)))⟩

/-- `df[col].count()`: non-null entries of one column. -/
def Column.nonNullCount : Column → ℕ
  | .num l => (l.filterMap id).length
  | .cat l => (l.filterMap id).length

/-- `df[col].dtype in [int, float]`. -/
def Column.isNumericDtype : Column → Bool
  | .num _ => true
  | .cat _ => false

/-- The numeric view of a column; on an object-dtype column it applies the
engine's numeric interpretation of each cell (only ever used after a
successful cast, where every non-missing cell has one). -/
def Column.numData : Column → List (Option ℚ)
  | .num l => l
  | .cat l => l.map (fun o => o.bind CatVal.numParse)

/-- The categorical view of a column (only used on object-dtype columns). -/
def Column.catData : Column → List (Option CatVal)
  | .num _ => []
  | .cat l => l

/-- Whether row `i` of the column is missing. -/
def Column.missingAt : Column → ℕ → Bool
  | .num l, i => (l.getD i none).isNone
  | .cat l, i => (l.getD i none).isNone

/-- `len(df.dropna())`: rows with no missing value in any column of the
view. -/
def Df.completeRows (df : Df) : ℕ :=
  (List.range df.numRows).countP (fun i => df.cols.all (fun c => !(c.2.missingAt i)))

/-! ### Privacy checks (`_check_privacy`, identical in `partial_summary.py`
and `partial_variance.py`) -/

/-- `_check_privacy`: minimum-rows floor on the partition, then the same
floor on each column's non-null count, then the allow-list, then the
deny-list.  The threshold failures raise `PrivacyThresholdViolation`; the
list failures raise `ValueError` (`permissionDenied` here). -/
def checkPrivacy (cfg : Config) (df : Df) (requestedColumns : List String) :
    Except AlgError Unit :=
  if (df.numRows : ℤ) < cfg.minRows then .error .privacyThreshold
  else if df.cols.any (fun c => decide ((c.2.nonNullCount : ℤ) < cfg.minRows)) then
    .error .privacyThreshold
  else if (match cfg.allowedColumns with
           | some allowed => requestedColumns.any (fun c => !(allowed.contains c))
           | none => false) then .error .permissionDenied
  else if (match cfg.disallowedColumns with
           | some deny => requestedColumns.any (fun c => deny.contains c)
           | none => false) then .error .permissionDenied
  else .ok ()

/-! ### Kind resolution (`_check_match_inferred_is_numeric`) -/

/-- `pd.to_numeric(df[col])` on one column: succeeds iff every non-missing
cell has a numeric interpretation, producing an `int`/`float` column; a
numeric column casts to itself. -/
def Column.castNumeric : Column → Option Column
  | .num l => some (.num l)
  | .cat l =>
    if l.all (fun o => match o with | none => true | some v => v.numParse.isSome)
    then some (.num (l.map (fun o => o.bind CatVal.numParse)))
    else none

/-- The cast loop `for col in wrongly_numeric_columns: df[col] =
pd.to_numeric(df[col])`: all listed columns cast, or the `ValueError` of the
first failure aborts (`none`). -/
def castDfCols (df : Df) (toCast : List String) : Option Df :=
  if toCast.all (fun c => ((df.lookupCol c).bind Column.castNumeric).isSome)
  then some ⟨df.numRows,
    df.cols.map (fun p =>
      if toCast.contains p.1 then (p.1, (p.2.castNumeric).getD p.2) else p)⟩
  else none

/-- Columns the caller declared numeric but inference disagrees with. -/
def wronglyNumericColumns (isNumeric inferred : List Bool) (columns : List String) :
    List String :=
  (columns.zip (isNumeric.zip inferred)).filterMap
    (fun p => if p.2.1 && !p.2.2 then some p.1 else none)

/-- Columns the caller declared categorical but inference finds numeric. -/
def wronglyNonNumericColumns (isNumeric inferred : List Bool) (columns : List String) :
    List String :=
  (columns.zip (isNumeric.zip inferred)).filterMap
    (fun p => if !p.2.1 && p.2.2 then some p.1 else none)

/-- `_check_match_inferred_is_numeric` (`partial_summary.py`): length check,
shortcut when hints and inference agree, otherwise attempt the numeric cast
of the hinted-numeric mismatches and collect the fatal message parts. -/
def checkMatchInferredIsNumeric (isNumeric inferred : List Bool)
    (columns : List String) (df : Df) : Except AlgError Df :=
  if isNumeric.length ≠ columns.length then .error .lengthMismatch
  else if isNumeric = inferred then .ok df
  else
    match castDfCols df (wronglyNumericColumns isNumeric inferred columns) with
    | some df2 =>
      if (wronglyNonNumericColumns isNumeric inferred columns).isEmpty then .ok df2
      else .error (.typeMismatch [] (wronglyNonNumericColumns isNumeric inferred columns))
    | none =>
      .error (.typeMismatch (wronglyNumericColumns isNumeric inferred columns)
        (wronglyNonNumericColumns isNumeric inferred columns))

/-! ### Categorical value counts and masking -/

/-- `df[col].value_counts()`: occurrence count of each distinct non-missing
raw value. -/
def valueCounts (l : List (Option CatVal)) : List (String × ℕ) :=
  ((l.filterMap id).map CatVal.str).dedup.map
    (fun v => (v, ((l.filterMap id).map CatVal.str).count v))

/-- `_mask_privacy`: if the sum of the counts strictly below the threshold is
positive, the whole mapping is replaced by an empty one; otherwise the counts
are returned unchanged. -/
def maskPrivacy (counts : List (String × ℕ)) (privacyThreshold : ℤ) :
    List (String × ℕ) :=
  if 0 < ((counts.filter (fun p => decide ((p.2 : ℤ) < privacyThreshold))).map Prod.snd).sum
  then []
  else counts

/-- `_get_counts_unique_values` restricted to one column. -/
def getCountsUniqueValues (cfg : Config) (l : List (Option CatVal)) :
    List (String × ℕ) :=
  maskPrivacy (valueCounts l) cfg.privacyThreshold

/-! ### Round-1 node computation (`summary_per_data_station`) -/

/-- One node's round-1 response. -/
structure NodeSummary where
  numeric : List (String × NumStats)
  categorical : List (String × CatStats)
  countsUniqueValues : List (String × List (String × ℕ))
  numCompleteRows : ℕ
deriving DecidableEq, Repr

/-- Kind resolution in `summary_per_data_station`: without hints the
inferred kinds are used as-is; with hints they are reconciled against the
inference by `_check_match_inferred_is_numeric` (possibly casting). -/
def resolveKinds (hints : Option (List Bool)) (inferred : List Bool)
    (columns : List String) (df : Df) : Except AlgError (List Bool × Df) :=
  match hints with
  | none => .ok (inferred, df)
  | some hs => (checkMatchInferredIsNumeric hs inferred columns df).map (fun d => (hs, d))

/-- The numeric columns of the request (`numeric_columns` in the source):
those whose resolved kind flag is numeric. -/
def numericColumnsOf (columns : List String) (flags : List Bool) : List String :=
  (columns.zip flags).filterMap (fun p => if p.2 then some p.1 else none)

/-- The non-numeric columns of the request. -/
def catColumnsOf (columns : List String) (flags : List Bool) : List String :=
  (columns.zip flags).filterMap (fun p => if p.2 then none else some p.1)

/-- The response body of `summary_per_data_station` once kinds are resolved:
the numeric and categorical summaries, the masked value counts and the
complete-row count.  An empty numeric (resp. categorical) selection, or a
zero-row view, yields an empty mapping (the `df.empty` guards in the
source). -/
def buildNodeSummary (cfg : Config) (columns : List String) (flags : List Bool)
    (df2 : Df) : NodeSummary :=
  { numeric :=
      if (numericColumnsOf columns flags).isEmpty || df2.numRows == 0 then []
      else (numericColumnsOf columns flags).filterMap
        (fun c => (df2.lookupCol c).map (fun col => (c, numColStats col.numData)))
    categorical :=
      if (catColumnsOf columns flags).isEmpty || df2.numRows == 0 then []
      else (catColumnsOf columns flags).filterMap
        (fun c => (df2.lookupCol c).map (fun col => (c, catColStats col.catData)))
    countsUniqueValues :=
      if (catColumnsOf columns flags).isEmpty || df2.numRows == 0 then []
      else (catColumnsOf columns flags).filterMap
        (fun c => (df2.lookupCol c).map
          (fun col => (c, getCountsUniqueValues cfg col.catData)))
    numCompleteRows := df2.completeRows }

/-- `summary_per_data_station`: existence check on the requested columns
(enumerating all missing names), view restriction, privacy check, kind
resolution, then the summaries. -/
def summaryPerDataStation (cfg : Config) (df : Df) (columns : List String)
    (isNumeric : Option (List Bool)) : Except AlgError NodeSummary :=
  if !(columns.filter (fun c => !(df.hasCol c))).isEmpty then
    .error (.unknownColumns (columns.filter (fun c => !(df.hasCol c))))
  else
    match checkPrivacy cfg (df.restrict columns) columns with
    | .error e => .error e
    | .ok _ =>
      match resolveKinds isNumeric
          ((df.restrict columns).cols.map (fun c => c.2.isNumericDtype))
          columns (df.restrict columns) with
      | .error e => .error e
      | .ok (flags, df2) => .ok (buildNodeSummary cfg columns flags df2)

/-! ### Round-2 node computation (`variance_per_data_station`) -/

/-- `variance_per_data_station`: existence check, `columns`/`means` length
check, view restriction, privacy check, then for each column the sum of
squared deviations from the provided mean.  The subtraction `df[column] -
mean` on an object-dtype column is an engine `TypeError` (no cast is
attempted in this function). -/
def variancePerDataStation (cfg : Config) (df : Df) (columns : List String)
    (means : List ℚ) : Except AlgError (List (String × ℚ)) :=
  if !(columns.filter (fun c => !(df.hasCol c))).isEmpty then
    .error (.unknownColumns (columns.filter (fun c => !(df.hasCol c))))
  else if columns.length ≠ means.length then .error .meansLengthMismatch
  else
    match checkPrivacy cfg (df.restrict columns) columns with
    | .error e => .error e
    | .ok _ =>
      if (df.restrict columns).cols.any (fun c => !(c.2.isNumericDtype)) then
        .error .engineError
      else
        .ok ((columns.zip means).map (fun p =>
          (p.1, varianceContribution
            ((((df.restrict columns).lookupCol p.1).map Column.numData).getD []) p.2)))

/-! ### Central aggregation (`_aggregate_partial_summaries`) -/

/-- The running aggregate inside the `for result in results` loop. -/
structure AggAccum where
  numeric : List (String × NumStats)
  categorical : List (String × CatStats)
  countsUniqueValues : List (String × List (String × ℕ))
  numCompleteRowsPerNode : List ℕ
deriving DecidableEq, Repr

/-- One `.loc[...] += / min / max` family of updates on a named summary
mapping.  An empty incoming part is skipped (`if not result.empty` in the
source); `.loc` row arithmetic on an empty accumulated frame raises
`KeyError`; the embedding covers same-keyed summaries and flags any other
alignment as outside the model. -/
def aggField (f : σ → σ → σ) (acc next : List (String × σ)) :
    Except AlgError (List (String × σ)) :=
  if next.isEmpty then .ok acc
  else if acc.isEmpty then .error .keyError
  else if acc.map Prod.fst = next.map Prod.fst then
    .ok ((acc.zip next).map (fun p => (p.1.1, f p.1.2 p.2.2)))
  else .error .misaligned

/-- `DataFrame.add(other, fill_value=0)` on one column's value table: union
of the keys, counts added where both sides have the key. -/
def mergeCountTables (a b : List (String × ℕ)) : List (String × ℕ) :=
  a.map (fun p => (p.1, p.2 + ((List.lookup p.1 b).getD 0))) ++
    b.filter (fun q => !((a.map Prod.fst).contains q.1))

/-- `counts_unique_values.add(other, fill_value=0)`: per-column union with
table merge.  Unlike the `.loc` updates this is total: adding to an empty
frame just yields the other frame. -/
def mergeCountsUnique (a b : List (String × List (String × ℕ))) :
    List (String × List (String × ℕ)) :=
  a.map (fun p => (p.1, mergeCountTables p.2 ((List.lookup p.1 b).getD []))) ++
    b.filter (fun q => !((a.map Prod.fst).contains q.1))

/-- The loop body of `_aggregate_partial_summaries` for a non-first node
result. -/
def aggStep (acc : AggAccum) (r : NodeSummary) : Except AlgError AggAccum :=
  match aggField reduceNum acc.numeric r.numeric with
  | .error e => .error e
  | .ok numeric2 =>
    match aggField reduceCat acc.categorical r.categorical with
    | .error e => .error e
    | .ok categorical2 =>
      .ok ⟨numeric2, categorical2,
        (if r.countsUniqueValues.isEmpty then acc.countsUniqueValues
         else mergeCountsUnique acc.countsUniqueValues r.countsUniqueValues),
        acc.numCompleteRowsPerNode ++ [r.numCompleteRows]⟩

/-- The loop of `_aggregate_partial_summaries` over the remaining results:
each `None` raises `AlgorithmExecutionError` before anything else. -/
def aggFold : AggAccum → List (Option NodeSummary) → Except AlgError AggAccum
  | acc, [] => .ok acc
  | _, none :: _ => .error .executionError
  | acc, some r :: rest =>
    match aggStep acc r with
    | .error e => .error e
    | .ok acc2 => aggFold acc2 rest

/-- The `mean` row derived after reduction: `sum / count` per column;
for a zero-count column the engine value `0 / 0` is NaN (`none`; the
aggregated `sum` of such a column is `0`). -/
def meanOfStats (s : NumStats) : Option ℚ :=
  if s.count = 0 then none else some (s.sum / (s.count : ℚ))

/-- The reduced summary returned by `_aggregate_partial_summaries`, with the
derived `mean` row. -/
structure AggSummary where
  numeric : List (String × NumStats)
  categorical : List (String × CatStats)
  countsUniqueValues : List (String × List (String × ℕ))
  numCompleteRowsPerNode : List ℕ
  means : List (String × Option ℚ)
deriving DecidableEq, Repr

/-- `_aggregate_partial_summaries`: first result copied as the seed (with
its complete-row count opening the per-node list), the rest folded in, the
`mean` row appended.  An empty result list leaves the accumulator dict empty
and the closing `aggregated_summary["numeric"]` access raises `KeyError`. -/
def aggregateNodeSummaries : List (Option NodeSummary) → Except AlgError AggSummary
  | [] => .error .keyError
  | none :: _ => .error .executionError
  | some r :: rest =>
    match aggFold ⟨r.numeric, r.categorical, r.countsUniqueValues, [r.numCompleteRows]⟩ rest with
    | .error e => .error e
    | .ok acc =>
      .ok ⟨acc.numeric, acc.categorical, acc.countsUniqueValues,
        acc.numCompleteRowsPerNode,
        acc.numeric.map (fun p => (p.1, meanOfStats p.2))⟩

/-- `numerical_columns = list(results["numeric"].keys())` in `summary`: every
aggregated numeric column becomes part of the round-2 request. -/
def round2Columns (agg : AggSummary) : List String :=
  agg.numeric.map Prod.fst

/-! ### Final standard deviation (`_add_sd_to_results`) -/

/-- An engine floating-point value as far as the embedding needs it:
a finite rational or one of the IEEE specials. -/
inductive PFloat where
  | val (q : ℚ)
  | posInf
  | negInf
  | nanv
deriving DecidableEq, Repr

/-- The result of the engine's `** 0.5`: `sqrtVal q` stands for the
nonnegative square root of the nonnegative rational `q`; nonfinite and
negative inputs follow IEEE (`sqrt` of a negative value is NaN). -/
inductive SqrtRes where
  | sqrtVal (q : ℚ)
  | posInf
  | nanv
deriving DecidableEq, Repr

/-- IEEE division as the engine performs it: a zero divisor gives a signed
infinity, or NaN for `0 / 0`. -/
def pandasDiv (a b : ℚ) : PFloat :=
  if b = 0 then (if 0 < a then .posInf else if a < 0 then .negInf else .nanv)
  else .val (a / b)

/-- IEEE `** 0.5`. -/
def pandasSqrt : PFloat → SqrtRes
  | .val q => if q < 0 then .nanv else .sqrtVal q
  | .posInf => .posInf
  | .negInf => .nanv
  | .nanv => .nanv

/-- The `std` entry `(variance_sum / (count - 1)) ** 0.5` computed by
`_add_sd_to_results` for one column, evaluated unconditionally whatever the
count is. -/
def stdFromVarianceSum (varianceSum : ℚ) (count : ℕ) : SqrtRes :=
  pandasSqrt (pandasDiv varianceSum ((count : ℚ) - 1))

/-- `variance_df.sum()` for one column: the NaN-skipping sum of the
contributions of the nodes that reported the column; a column no node
reported is absent from the sum and aligns to NaN in the `std` row. -/
def varSumAllNodes (contribs : List (List (String × ℚ))) (c : String) : Option ℚ :=
  if (contribs.filterMap (fun t => List.lookup c t)).isEmpty then none
  else some (contribs.filterMap (fun t => List.lookup c t)).sum

/-- `_add_sd_to_results`: unchanged results when there are no numerical
columns, otherwise the `std` row for every aggregated numeric column.  The
source has no `None` check; `pd.DataFrame(variance_results)` behaves three
ways.  All responses present: the record path builds the keyed frame and the
sums are as usual.  All responses null (or an empty list): the constructor
takes the plain-list path (a null is not list-like), the single unnamed
column sums to the scalar `0`, and aligning that with the named `count` row
makes every `std` entry NaN - the aggregation succeeds with an all-NaN
`std` row.  Mixed records and nulls: the call fails with an unhandled engine
error (a null record has no keys on the record path; a surviving record
meets NaN division on the plain path). -/
def addSdToResults (numeric : List (String × NumStats))
    (varianceResults : List (Option (List (String × ℚ))))
    (numericalColumns : List String) : Except AlgError (List (String × SqrtRes)) :=
  if numericalColumns.isEmpty then .ok []
  else if varianceResults.all (fun r => r.isNone) then
    .ok (numeric.map (fun p => (p.1, SqrtRes.nanv)))
  else if varianceResults.any (fun r => r.isNone) then .error .engineError
  else
    .ok (numeric.map (fun p =>
      (p.1, match varSumAllNodes (varianceResults.filterMap id) p.1 with
            | none => SqrtRes.nanv
            | some v => stdFromVarianceSum v p.2.count)))

/-! ### Central entry point (`summary`) -/

/-- `numeric_not_in_columns`: the requested numeric columns absent from
`columns` (a Python set difference; deduplicated here). -/
def numericNotInColumns (columns numericColumns : List String) : List String :=
  (numericColumns.filter (fun c => !(columns.contains c))).dedup

/-- The input validation at the top of `summary`: with both a non-empty
`columns` and a non-empty `numeric_columns` (Python truthiness), a
non-subset raises `InputError` naming the difference. -/
def summaryInputCheck : Option (List String) → Option (List String) →
    Except AlgError Unit
  | some columns, some numericColumns =>
    if !columns.isEmpty && !numericColumns.isEmpty
        && !(numericColumns.all columns.contains)
    then .error (.inputSubset (numericNotInColumns columns numericColumns))
    else .ok ()
  | _, _ => .ok ()

/-- The central result: the aggregated summary and the derived `std` row. -/
structure FinalResult where
  agg : AggSummary
  std : List (String × SqrtRes)
deriving DecidableEq, Repr

/-- `summary` as a function of the node responses: input validation, round-1
aggregation, and - when any numeric column exists - the round-2 standard
deviation.  The node responses are inputs here; the transport that produces
them is external to the embedding. -/
def summaryCentral (columns numericColumns : Option (List String))
    (round1Results : List (Option NodeSummary))
    (round2Results : List (Option (List (String × ℚ)))) :
    Except AlgError FinalResult :=
  match summaryInputCheck columns numericColumns with
  | .error e => .error e
  | .ok _ =>
    match aggregateNodeSummaries round1Results with
    | .error e => .error e
    | .ok agg =>
      if (round2Columns agg).isEmpty then .ok ⟨agg, []⟩
      else
        match addSdToResults agg.numeric round2Results (round2Columns agg) with
        | .error e => .error e
        | .ok std => .ok ⟨agg, std⟩

/-! ### Algebra of the per-column round-1 reduction -/

lemma nonMissing_nil : nonMissing [] = [] := rfl

lemma nonMissing_append (l1 l2 : List (Option ℚ)) :
    nonMissing (l1 ++ l2) = nonMissing l1 ++ nonMissing l2 :=
  List.filterMap_append l1 l2 id

lemma listMin_cons (x : ℚ) (xs : List ℚ) :
    listMin (x :: xs) = optMin (some x) (listMin xs) := by
  cases h : listMin xs <;> simp [listMin, optMin, h]

lemma listMax_cons (x : ℚ) (xs : List ℚ) :
    listMax (x :: xs) = optMax (some x) (listMax xs) := by
  cases h : listMax xs <;> simp [listMax, optMax, h]

lemma optMin_none_right (a : Option ℚ) : optMin a none = a := by
  cases a <;> rfl

lemma optMax_none_right (a : Option ℚ) : optMax a none = a := by
  cases a <;> rfl

lemma optMin_comm (a b : Option ℚ) : optMin a b = optMin b a := by
  cases a <;> cases b <;> simp [optMin, min_comm]

lemma optMax_comm (a b : Option ℚ) : optMax a b = optMax b a := by
  cases a <;> cases b <;> simp [optMax, max_comm]

lemma optMin_assoc (a b c : Option ℚ) :
    optMin (optMin a b) c = optMin a (optMin b c) := by
  cases a <;> cases b <;> cases c <;> simp [optMin, min_assoc]

lemma optMax_assoc (a b c : Option ℚ) :
    optMax (optMax a b) c = optMax a (optMax b c) := by
  cases a <;> cases b <;> cases c <;> simp [optMax, max_assoc]

lemma listMin_append (l1 l2 : List ℚ) :
    listMin (l1 ++ l2) = optMin (listMin l1) (listMin l2) := by
  induction l1 with
  | nil => simp [listMin, optMin]
  | cons x xs ih =>
    rw [List.cons_append, listMin_cons, ih, listMin_cons, optMin_assoc]

lemma listMax_append (l1 l2 : List ℚ) :
    listMax (l1 ++ l2) = optMax (listMax l1) (listMax l2) := by
  induction l1 with
  | nil => simp [listMax, optMax]
  | cons x xs ih =>
    rw [List.cons_append, listMax_cons, ih, listMax_cons, optMax_assoc]

/-- Reducing two per-column numeric summaries is the same as summarising the
concatenated column. -/
lemma numColStats_append (l1 l2 : List (Option ℚ)) :
    reduceNum (numColStats l1) (numColStats l2) = numColStats (l1 ++ l2) := by
  simp [reduceNum, numColStats, nonMissing_append, listMin_append,
    listMax_append, List.countP_append]

lemma reduceNum_comm (a b : NumStats) : reduceNum a b = reduceNum b a := by
  simp [reduceNum, optMin_comm, optMax_comm, Nat.add_comm, add_comm]

lemma reduceNum_assoc (a b c : NumStats) :
    reduceNum (reduceNum a b) c = reduceNum a (reduceNum b c) := by
  simp [reduceNum, optMin_assoc, optMax_assoc, Nat.add_assoc, add_assoc]

lemma catColStats_append (l1 l2 : List (Option CatVal)) :
    reduceCat (catColStats l1) (catColStats l2) = catColStats (l1 ++ l2) := by
  simp [reduceCat, catColStats, List.filterMap_append, List.countP_append]

lemma reduceCat_comm (a b : CatStats) : reduceCat a b = reduceCat b a := by
  simp [reduceCat, Nat.add_comm]

lemma reduceCat_assoc (a b c : CatStats) :
    reduceCat (reduceCat a b) c = reduceCat a (reduceCat b c) := by
  simp [reduceCat, Nat.add_assoc]

/-- Summary of the empty column: the reduction's neutral element. -/
lemma numColStats_nil :
    numColStats [] = { count := 0, min := none, max := none, missing := 0, sum := 0 } :=
  rfl

lemma reduceNum_nil_left (s : NumStats) : reduceNum (numColStats []) s = s := by
  simp [reduceNum, numColStats, nonMissing, listMin, listMax, optMin, optMax]

lemma foldl_reduceNum_flatten (l : List (Option ℚ)) (ps : List (List (Option ℚ))) :
    (ps.map numColStats).foldl reduceNum (numColStats l) = numColStats (l ++ ps.flatten) := by
  induction ps generalizing l with
  | nil => simp
  | cons p ps ih =>
    rw [List.map_cons, List.foldl_cons, numColStats_append, ih, List.flatten_cons,
      List.append_assoc]

/-- The aggregated numeric statistics of the partitions equal the direct
statistics of the concatenated dataset. -/
lemma globalNumStats_eq_flatten (parts : List (List (Option ℚ))) :
    globalNumStats parts = numColStats parts.flatten := by
  cases parts with
  | nil => rfl
  | cons p ps =>
    simp only [globalNumStats, List.map_cons]
    rw [foldl_reduceNum_flatten, List.flatten_cons]

lemma varianceContribution_append (l1 l2 : List (Option ℚ)) (m : ℚ) :
    varianceContribution (l1 ++ l2) m =
      varianceContribution l1 m + varianceContribution l2 m := by
  simp [varianceContribution, nonMissing_append]

lemma sum_varianceContribution (parts : List (List (Option ℚ))) (m : ℚ) :
    (parts.map (fun p => varianceContribution p m)).sum =
      varianceContribution parts.flatten m := by
  induction parts with
  | nil => simp [varianceContribution, nonMissing]
  | cons p ps ih =>
    rw [List.map_cons, List.sum_cons, ih, List.flatten_cons,
      varianceContribution_append]

/-! ## Claims -/

/-- C1: for every dataset split into k ≥ 2 node partitions with total
non-missing count ≥ 2 in a numeric column, the two-round protocol (each node
returns the sum over its non-missing rows of the squared deviation from the
provided global mean; the aggregator sums the contributions, divides by the
global count minus one and takes the nonnegative square root) yields exactly
the single-machine sample variance and standard deviation of the
concatenated column. -/
theorem c1_two_round_protocol_exact (parts : List (List (Option ℚ)))
    (_hk : 2 ≤ parts.length) (_hn : 2 ≤ (nonMissing parts.flatten).length) :
    pooledVariance parts = singleMachineVariance parts.flatten ∧
      Real.sqrt (pooledVariance parts) =
        Real.sqrt (singleMachineVariance parts.flatten) := by
  have h : pooledVariance parts = singleMachineVariance parts.flatten := by
    unfold pooledVariance singleMachineVariance providedGlobalMean
    rw [sum_varianceContribution, globalNumStats_eq_flatten]
    simp [varianceContribution, numColStats]
  exact ⟨h, by rw [h]⟩

/-- Witness for C1 at the two-partition dataset `[1] / [3]`. -/
theorem c1_two_round_protocol_exact_witness :
    2 ≤ ([[some 1], [some 3]] : List (List (Option ℚ))).length ∧
      2 ≤ (nonMissing ([[some 1], [some 3]] : List (List (Option ℚ))).flatten).length ∧
      (pooledVariance [[some 1], [some 3]] =
          singleMachineVariance ([[some 1], [some 3]] : List (List (Option ℚ))).flatten ∧
        Real.sqrt (pooledVariance [[some 1], [some 3]]) =
          Real.sqrt (singleMachineVariance
            ([[some 1], [some 3]] : List (List (Option ℚ))).flatten)) :=
  ⟨by decide, by decide,
    c1_two_round_protocol_exact [[some 1], [some 3]] (by decide) (by decide)⟩

/-- C2 (amended): the round-1 per-field reduction of two same-keyed partial
summaries equals the direct statistics of the concatenated partitions, and
the per-field operators are commutative and associative (so any bracketing
or order of non-empty parts agrees); an empty incoming numeric or
categorical part after a non-empty first part is skipped (identity).  The
original claim's full order-independence fails when the empty part comes
first - see the counterexample. -/
theorem c2_reduction_matches_concatenation :
    (∀ l1 l2 : List (Option ℚ),
      reduceNum (numColStats l1) (numColStats l2) = numColStats (l1 ++ l2)) ∧
    (∀ a b : NumStats, reduceNum a b = reduceNum b a) ∧
    (∀ a b c : NumStats, reduceNum (reduceNum a b) c = reduceNum a (reduceNum b c)) ∧
    (∀ m1 m2 : List (Option CatVal),
      reduceCat (catColStats m1) (catColStats m2) = catColStats (m1 ++ m2)) ∧
    (∀ a b : CatStats, reduceCat a b = reduceCat b a) ∧
    (∀ a b c : CatStats, reduceCat (reduceCat a b) c = reduceCat a (reduceCat b c)) ∧
    (∀ acc : List (String × NumStats), aggField reduceNum acc [] = .ok acc) :=
  ⟨numColStats_append, reduceNum_comm, reduceNum_assoc,
    catColStats_append, reduceCat_comm, reduceCat_assoc,
    fun acc => by simp [aggField]⟩

/-- Counterexample to C2 as stated: a zero-row partition passes the privacy
check when the minimum-rows threshold is 0 and contributes an empty numeric
part.  Reducing it with a non-empty partition is order-dependent: with the
empty part second the reduction succeeds and equals the non-empty summary,
but with the empty part first the aggregation crashes (pandas `KeyError` on
`.loc["count"]` of the empty accumulated frame) instead of producing the
concatenation's statistics. -/
theorem c2_empty_part_order_dependence :
    summaryPerDataStation ⟨0, none, none, 5, true⟩ ⟨0, [("a", .num [])]⟩ ["a"] none =
      .ok ⟨[], [], [], 0⟩ ∧
    summaryPerDataStation ⟨0, none, none, 5, true⟩
        ⟨2, [("a", .num [some 1, some 3])]⟩ ["a"] none =
      .ok ⟨[("a", ⟨2, some 1, some 3, 0, 4⟩)], [], [], 2⟩ ∧
    aggregateNodeSummaries
        [some ⟨[], [], [], 0⟩, some ⟨[("a", ⟨2, some 1, some 3, 0, 4⟩)], [], [], 2⟩] =
      .error .keyError ∧
    aggregateNodeSummaries
        [some ⟨[("a", ⟨2, some 1, some 3, 0, 4⟩)], [], [], 2⟩, some ⟨[], [], [], 0⟩] =
      .ok ⟨[("a", ⟨2, some 1, some 3, 0, 4⟩)], [], [], [2, 0], [("a", some 2)]⟩ := by
  refine ⟨?_, ?_, ?_, ?_⟩
  · norm_num [summaryPerDataStation, checkPrivacy, Df.restrict, Df.lookupCol,
      Df.hasCol, Column.nonNullCount, Column.isNumericDtype, Df.completeRows,
      resolveKinds, buildNodeSummary, numericColumnsOf, catColumnsOf]
  · norm_num [summaryPerDataStation, checkPrivacy, Df.restrict, Df.lookupCol,
      Df.hasCol, Column.nonNullCount, Column.isNumericDtype, Df.completeRows,
      resolveKinds, buildNodeSummary, numericColumnsOf, catColumnsOf,
      Column.numData, Column.missingAt, numColStats, nonMissing, listMin, listMax,
      List.filterMap_cons, List.countP_cons, List.range_succ, NumStats.mk.injEq]
  · norm_num [aggregateNodeSummaries, aggFold, aggStep, aggField]
  · norm_num [aggregateNodeSummaries, aggFold, aggStep, aggField, meanOfStats]

/-- C3 (amended): the mean derived after round-1 reduction is exactly the
whole-dataset mean - global sum over global count of non-missing values -
for every column with at least one non-missing value (a zero-count column
gets the NaN mean `0 / 0`); and the round-2 variance request contains every
aggregated numeric column, with no exclusion of zero-count columns. -/
theorem c3_global_mean_and_round2_request :
    (∀ parts : List (List (Option ℚ)), nonMissing parts.flatten ≠ [] →
      meanOfStats (globalNumStats parts) =
        some ((nonMissing parts.flatten).sum /
          ((nonMissing parts.flatten).length : ℚ))) ∧
    (∀ (rs : List (Option NodeSummary)) (agg : AggSummary),
      aggregateNodeSummaries rs = .ok agg →
      ∀ p ∈ agg.numeric, p.1 ∈ round2Columns agg) := by
  constructor
  · intro parts h
    rw [globalNumStats_eq_flatten]
    simp only [meanOfStats, numColStats]
    rw [if_neg (by simpa [List.length_eq_zero] using h)]
  · intro rs agg _ p hp
    exact List.mem_map.mpr ⟨p, hp, rfl⟩

/-- Witness for C3 (amended) at the dataset `[1] / [3]` and at a one-node
aggregation. -/
theorem c3_global_mean_and_round2_request_witness :
    (nonMissing ([[some 1], [some 3]] : List (List (Option ℚ))).flatten ≠ [] ∧
      meanOfStats (globalNumStats [[some 1], [some 3]]) =
        some ((nonMissing ([[some 1], [some 3]] : List (List (Option ℚ))).flatten).sum /
          ((nonMissing ([[some 1], [some 3]] : List (List (Option ℚ))).flatten).length : ℚ))) ∧
    (aggregateNodeSummaries [some ⟨[("a", ⟨2, some 1, some 3, 0, 4⟩)], [], [], 2⟩] =
        .ok ⟨[("a", ⟨2, some 1, some 3, 0, 4⟩)], [], [], [2], [("a", some 2)]⟩ ∧
      "a" ∈ round2Columns
        ⟨[("a", ⟨2, some 1, some 3, 0, 4⟩)], [], [], [2], [("a", some 2)]⟩) := by
  have hagg : aggregateNodeSummaries [some ⟨[("a", ⟨2, some 1, some 3, 0, 4⟩)], [], [], 2⟩] =
      .ok ⟨[("a", ⟨2, some 1, some 3, 0, 4⟩)], [], [], [2], [("a", some 2)]⟩ := by
    norm_num [aggregateNodeSummaries, aggFold, meanOfStats]
  refine ⟨⟨by decide, c3_global_mean_and_round2_request.1 [[some 1], [some 3]] (by decide)⟩,
    hagg, c3_global_mean_and_round2_request.2 _ _ hagg
      ("a", ⟨2, some 1, some 3, 0, 4⟩) (by decide)⟩

/-- Counterexample to C3 as stated: with the minimum-rows threshold set to 0
an all-missing numeric column passes the node's privacy check and aggregates
to global count 0 (mean NaN), yet `summary` still places it in the round-2
variance request (`list(results["numeric"].keys())` filters nothing), so a
zero-count column is not excluded from round 2. -/
theorem c3_zero_count_column_in_round2 :
    summaryPerDataStation ⟨0, none, none, 5, true⟩
        ⟨2, [("a", .num [none, none])]⟩ ["a"] none =
      .ok ⟨[("a", ⟨0, none, none, 2, 0⟩)], [], [], 0⟩ ∧
    aggregateNodeSummaries [some ⟨[("a", ⟨0, none, none, 2, 0⟩)], [], [], 0⟩] =
      .ok ⟨[("a", ⟨0, none, none, 2, 0⟩)], [], [], [0], [("a", none)]⟩ ∧
    round2Columns ⟨[("a", ⟨0, none, none, 2, 0⟩)], [], [], [0], [("a", none)]⟩ =
      ["a"] := by
  refine ⟨?_, ?_, rfl⟩
  · norm_num [summaryPerDataStation, checkPrivacy, Df.restrict, Df.lookupCol,
      Df.hasCol, Column.nonNullCount, Column.isNumericDtype, Df.completeRows,
      resolveKinds, buildNodeSummary, numericColumnsOf, catColumnsOf,
      Column.numData, Column.missingAt, numColStats, nonMissing, listMin, listMax,
      List.filterMap_cons, List.countP_cons, List.range_succ, NumStats.mk.injEq]
  · norm_num [aggregateNodeSummaries, aggFold, meanOfStats]

lemma valueCounts_pos (l : List (Option CatVal)) :
    ∀ p ∈ valueCounts l, 0 < p.2 := by
  intro p hp
  simp only [valueCounts, List.mem_map] at hp
  obtain ⟨v, hv, rfl⟩ := hp
  simpa using List.mem_dedup.mp hv

lemma sum_filter_lt_pos_iff (counts : List (String × ℕ)) (t : ℤ)
    (hpos : ∀ p ∈ counts, 0 < p.2) :
    0 < ((counts.filter (fun p => decide ((p.2 : ℤ) < t))).map Prod.snd).sum ↔
      ∃ p ∈ counts, (p.2 : ℤ) < t := by
  constructor
  · intro h
    by_contra hno
    push_neg at hno
    have : counts.filter (fun p => decide ((p.2 : ℤ) < t)) = [] := by
      apply List.filter_eq_nil_iff.mpr
      intro p hp
      simpa using hno p hp
    rw [this] at h
    simp at h
  · rintro ⟨p, hp, hlt⟩
    have hmem : p.2 ∈ (counts.filter (fun p => decide ((p.2 : ℤ) < t))).map Prod.snd :=
      List.mem_map.mpr ⟨p, List.mem_filter.mpr ⟨hp, by simpa using hlt⟩, rfl⟩
    have hle := List.single_le_sum (fun x _ => Nat.zero_le x) _ hmem
    have := hpos p hp
    omega

/-- C4: masking a categorical column's value counts is all-or-nothing.  Some
value occurring strictly fewer times than the threshold (equivalently: the
sum of the counts strictly below the threshold is positive, all occurrence
counts being positive) makes the node return an empty mapping for the
column; otherwise the node returns exactly the direct value counts. -/
theorem c4_mask_all_or_nothing (l : List (Option CatVal)) (t : ℤ) :
    ((∃ p ∈ valueCounts l, (p.2 : ℤ) < t) ↔
      0 < (((valueCounts l).filter
        (fun p => decide ((p.2 : ℤ) < t))).map Prod.snd).sum) ∧
    ((∃ p ∈ valueCounts l, (p.2 : ℤ) < t) → maskPrivacy (valueCounts l) t = []) ∧
    (¬(∃ p ∈ valueCounts l, (p.2 : ℤ) < t) →
      maskPrivacy (valueCounts l) t = valueCounts l) := by
  have key := sum_filter_lt_pos_iff (valueCounts l) t (valueCounts_pos l)
  refine ⟨key.symm, ?_, ?_⟩
  · intro h
    simp only [maskPrivacy]
    rw [if_pos (key.mpr h)]
  · intro h
    simp only [maskPrivacy]
    rw [if_neg (fun hc => h (key.mp hc))]

/-- Witness for C4: a value with count 1 under threshold 2 masks the whole
column; under threshold 1 nothing masks and the direct counts survive. -/
theorem c4_mask_all_or_nothing_witness :
    ((∃ p ∈ valueCounts [some ⟨"x", none⟩, some ⟨"y", none⟩, some ⟨"y", none⟩],
        (p.2 : ℤ) < 2) ∧
      maskPrivacy (valueCounts [some ⟨"x", none⟩, some ⟨"y", none⟩, some ⟨"y", none⟩]) 2 = []) ∧
    (¬(∃ p ∈ valueCounts [some ⟨"x", none⟩, some ⟨"y", none⟩, some ⟨"y", none⟩],
        (p.2 : ℤ) < 1) ∧
      maskPrivacy (valueCounts [some ⟨"x", none⟩, some ⟨"y", none⟩, some ⟨"y", none⟩]) 1 =
        valueCounts [some ⟨"x", none⟩, some ⟨"y", none⟩, some ⟨"y", none⟩]) :=
  ⟨⟨by decide, (c4_mask_all_or_nothing _ 2).2.1 (by decide)⟩,
    ⟨by decide, (c4_mask_all_or_nothing _ 1).2.2 (by decide)⟩⟩

lemma checkPrivacy_privacyThreshold_iff (cfg : Config) (df : Df)
    (req : List String) :
    checkPrivacy cfg df req = .error .privacyThreshold ↔
      ((df.numRows : ℤ) < cfg.minRows ∨
        ∃ c ∈ df.cols, (c.2.nonNullCount : ℤ) < cfg.minRows) := by
  unfold checkPrivacy
  split_ifs with h1 h2 h3 h4 <;> simp_all [List.any_eq_true] <;> exact h2

lemma checkMatch_ne_privacyThreshold (isNumeric inferred : List Bool)
    (columns : List String) (df : Df) :
    checkMatchInferredIsNumeric isNumeric inferred columns df ≠
      .error .privacyThreshold := by
  unfold checkMatchInferredIsNumeric
  cases castDfCols df (wronglyNumericColumns isNumeric inferred columns) <;>
    split_ifs <;> simp

lemma resolveKinds_ne_privacyThreshold (hints : Option (List Bool))
    (inferred : List Bool) (columns : List String) (df : Df) :
    resolveKinds hints inferred columns df ≠ .error .privacyThreshold := by
  unfold resolveKinds
  cases hints with
  | none => simp
  | some hs =>
    show Except.map (fun d => (hs, d)) (checkMatchInferredIsNumeric hs inferred columns df) ≠
      Except.error AlgError.privacyThreshold
    cases hcm : checkMatchInferredIsNumeric hs inferred columns df with
    | error e =>
      have hne := checkMatch_ne_privacyThreshold hs inferred columns df
      rw [hcm] at hne
      have he : e ≠ AlgError.privacyThreshold := fun h => hne (by rw [h])
      simp only [Except.map]
      intro hcontra
      injection hcontra with h2
      exact he h2
    | ok d =>
      simp [Except.map]

lemma Df.restrict_numRows (df : Df) (columns : List String) :
    (df.restrict columns).numRows = df.numRows := rfl

/-- C5: in both rounds the per-node computation fails with
`PrivacyThresholdViolation` (emitting no partial result) exactly when the
partition has fewer rows than the minimum-rows threshold or some requested
column has fewer than minimum-rows non-missing values; in particular a
too-small partition always fails, whatever the columns contain.  (For round
2 the `columns`/`means` length check precedes the privacy check, hence the
extra conjunct.) -/
theorem c5_privacy_failure_characterisation :
    (∀ (cfg : Config) (df : Df) (columns : List String) (hints : Option (List Bool)),
      (∀ c ∈ columns, df.hasCol c = true) →
      (summaryPerDataStation cfg df columns hints = .error .privacyThreshold ↔
        ((df.numRows : ℤ) < cfg.minRows ∨
          ∃ c ∈ (df.restrict columns).cols, (c.2.nonNullCount : ℤ) < cfg.minRows))) ∧
    (∀ (cfg : Config) (df : Df) (columns : List String) (means : List ℚ),
      (∀ c ∈ columns, df.hasCol c = true) →
      (variancePerDataStation cfg df columns means = .error .privacyThreshold ↔
        (columns.length = means.length ∧
          ((df.numRows : ℤ) < cfg.minRows ∨
            ∃ c ∈ (df.restrict columns).cols, (c.2.nonNullCount : ℤ) < cfg.minRows)))) := by
  constructor
  · intro cfg df columns hints hcols
    have hmiss : columns.filter (fun c => !(df.hasCol c)) = [] :=
      List.filter_eq_nil_iff.mpr (fun c hc => by simp [hcols c hc])
    have hkey := checkPrivacy_privacyThreshold_iff cfg (df.restrict columns) columns
    rw [Df.restrict_numRows] at hkey
    unfold summaryPerDataStation
    rw [hmiss]
    simp only [List.isEmpty_nil, Bool.not_true, Bool.false_eq_true, if_false]
    constructor
    · intro h
      split at h
      · rename_i e heq
        injection h with h2
        rw [h2] at heq
        exact hkey.mp heq
      · split at h
        · rename_i e2 heq2
          injection h with h2
          rw [h2] at heq2
          exact absurd heq2 (resolveKinds_ne_privacyThreshold _ _ _ _)
        · exact absurd h (by simp)
    · intro hc
      rw [hkey.mpr hc]
  · intro cfg df columns means hcols
    have hmiss : columns.filter (fun c => !(df.hasCol c)) = [] :=
      List.filter_eq_nil_iff.mpr (fun c hc => by simp [hcols c hc])
    have hkey := checkPrivacy_privacyThreshold_iff cfg (df.restrict columns) columns
    rw [Df.restrict_numRows] at hkey
    unfold variancePerDataStation
    rw [hmiss]
    simp only [List.isEmpty_nil, Bool.not_true, Bool.false_eq_true, if_false]
    by_cases hlen : columns.length = means.length
    · rw [if_neg (by omega)]
      constructor
      · intro h
        split at h
        · rename_i e heq
          injection h with h2
          rw [h2] at heq
          exact ⟨hlen, hkey.mp heq⟩
        · split_ifs at h <;> simp at h
      · intro hc
        rw [hkey.mpr hc.2]
    · rw [if_pos (by omega)]
      constructor
      · intro h
        simp at h
      · intro hc
        exact absurd hc.1 hlen

/-- Witness for C5: a 3-row partition under a minimum-rows threshold of 5
fails both rounds with the privacy error. -/
theorem c5_privacy_failure_characterisation_witness :
    (∀ c ∈ ["a"], Df.hasCol ⟨3, [("a", .num [some 1, some 2, some 3])]⟩ c = true) ∧
    summaryPerDataStation ⟨5, none, none, 5, true⟩
        ⟨3, [("a", .num [some 1, some 2, some 3])]⟩ ["a"] none =
      .error .privacyThreshold ∧
    variancePerDataStation ⟨5, none, none, 5, true⟩
        ⟨3, [("a", .num [some 1, some 2, some 3])]⟩ ["a"] [2] =
      .error .privacyThreshold :=
  ⟨by decide,
    (c5_privacy_failure_characterisation.1 ⟨5, none, none, 5, true⟩
        ⟨3, [("a", .num [some 1, some 2, some 3])]⟩ ["a"] none
        (by decide)).mpr (Or.inl (by decide)),
    (c5_privacy_failure_characterisation.2 ⟨5, none, none, 5, true⟩
        ⟨3, [("a", .num [some 1, some 2, some 3])]⟩ ["a"] [2]
        (by decide)).mpr ⟨by decide, Or.inl (by decide)⟩⟩

lemma aggFold_error_of_none_mem (rest : List (Option NodeSummary))
    (h : none ∈ rest) :
    ∀ acc, ∃ e, aggFold acc rest = .error e := by
  induction rest with
  | nil => cases h
  | cons r rest ih =>
    intro acc
    cases r with
    | none => exact ⟨.executionError, rfl⟩
    | some x =>
      have h2 : none ∈ rest := by
        rcases List.mem_cons.mp h with h1 | h1
        · exact absurd h1 (by simp)
        · exact h1
      unfold aggFold
      cases hstep : aggStep acc x with
      | error e => exact ⟨e, rfl⟩
      | ok acc2 => exact ih h2 acc2

/-- C6 (amended): a `null` node response is fatal in round 1
(`AlgorithmExecutionError`, checked explicitly) and in round 2 whenever at
least one node did respond (the engine chokes on the mixed record/null
list); but when every round-2 response is null, the aggregation does not
fail - the all-null list sums away and `summary` publishes an all-NaN `std`
row, failing open. -/
theorem c6_null_response_round_behaviour :
    (∀ results : List (Option NodeSummary), none ∈ results →
      ∃ e, aggregateNodeSummaries results = .error e) ∧
    (∀ (numeric : List (String × NumStats))
        (vrs : List (Option (List (String × ℚ)))) (cols : List String),
      none ∈ vrs → (∃ t, some t ∈ vrs) → cols ≠ [] →
      addSdToResults numeric vrs cols = .error .engineError) ∧
    (∀ (numeric : List (String × NumStats))
        (vrs : List (Option (List (String × ℚ)))) (cols : List String),
      (∀ r ∈ vrs, r = none) → cols ≠ [] →
      addSdToResults numeric vrs cols =
        .ok (numeric.map (fun p => (p.1, SqrtRes.nanv)))) := by
  refine ⟨?_, ?_, ?_⟩
  · intro results h
    cases results with
    | nil => cases h
    | cons r rest =>
      cases r with
      | none => exact ⟨.executionError, rfl⟩
      | some x =>
        have h2 : none ∈ rest := by
          rcases List.mem_cons.mp h with h1 | h1
          · exact absurd h1 (by simp)
          · exact h1
        obtain ⟨e, he⟩ := aggFold_error_of_none_mem rest h2
          ⟨x.numeric, x.categorical, x.countsUniqueValues, [x.numCompleteRows]⟩
        refine ⟨e, ?_⟩
        simp only [aggregateNodeSummaries]
        rw [he]
  · intro numeric vrs cols hmem hsome hne
    obtain ⟨t, ht⟩ := hsome
    unfold addSdToResults
    rw [if_neg (by simpa [List.isEmpty_iff] using hne),
      if_neg (by
        intro hall
        have := List.all_eq_true.mp hall (some t) ht
        simp at this),
      if_pos (List.any_eq_true.mpr ⟨none, hmem, rfl⟩)]
  · intro numeric vrs cols hall hne
    unfold addSdToResults
    rw [if_neg (by simpa [List.isEmpty_iff] using hne),
      if_pos (List.all_eq_true.mpr (fun r hr => by rw [hall r hr]; rfl))]

/-- Witness for C6 (amended): a missing response among two in round 1; a
missing response next to a present one in round 2; and an all-null round-2
response list that yields the NaN row. -/
theorem c6_null_response_round_behaviour_witness :
    (none ∈ [some (⟨[], [], [], 0⟩ : NodeSummary), none] ∧
      ∃ e, aggregateNodeSummaries [some ⟨[], [], [], 0⟩, none] = .error e) ∧
    (none ∈ [some [("a", (3:ℚ))], none] ∧
      (∃ t, some t ∈ [some [("a", (3:ℚ))], none]) ∧ (["a"] : List String) ≠ [] ∧
      addSdToResults [] [some [("a", 3)], none] ["a"] = .error .engineError) ∧
    ((∀ r ∈ ([none] : List (Option (List (String × ℚ)))), r = none) ∧
      (["a"] : List String) ≠ [] ∧
      addSdToResults [("b", ⟨0, none, none, 1, 0⟩)] [none] ["a"] =
        .ok [("b", SqrtRes.nanv)]) :=
  ⟨⟨by decide, c6_null_response_round_behaviour.1 [some ⟨[], [], [], 0⟩, none] (by decide)⟩,
    ⟨by decide, ⟨[("a", 3)], by decide⟩, by decide,
      c6_null_response_round_behaviour.2.1 [] [some [("a", 3)], none] ["a"]
        (by decide) ⟨[("a", 3)], by decide⟩ (by decide)⟩,
    ⟨by decide, by decide,
      c6_null_response_round_behaviour.2.2 [("b", ⟨0, none, none, 1, 0⟩)] [none] ["a"]
        (by decide) (by decide)⟩⟩

/-- Counterexample to C6 as stated: when every node's round-2 response is
null, the aggregation does not fail - `_add_sd_to_results` sums the all-null
frame to zero and `summary` returns a result whose `std` row is NaN for
every numeric column, silently continuing instead of raising an
aggregation failure. -/
theorem c6_all_null_round2_fails_open :
    addSdToResults [("a", ⟨2, some 1, some 3, 0, 4⟩)] [none] ["a"] =
      .ok [("a", SqrtRes.nanv)] ∧
    summaryCentral none none [some ⟨[("a", ⟨2, some 1, some 3, 0, 4⟩)], [], [], 2⟩] [none] =
      .ok ⟨⟨[("a", ⟨2, some 1, some 3, 0, 4⟩)], [], [], [2], [("a", some 2)]⟩,
        [("a", SqrtRes.nanv)]⟩ := by
  constructor
  · norm_num [addSdToResults]
  · norm_num [summaryCentral, summaryInputCheck, aggregateNodeSummaries, aggFold,
      meanOfStats, round2Columns, addSdToResults]

/-- C7 (amended): the variance-sharing switch (`SUMMARY_ALLOW_VARIANCE`) is
declared in `globals.py` but never read by `variance_per_data_station`; the
round-2 result is independent of it, and the engine's only outcomes are a
variance contribution or a hard error - there is no refusal/abstention
signal in the protocol. -/
theorem c7_variance_switch_never_consulted (minRows : ℤ)
    (allowed deny : Option (List String)) (t : ℤ) (b1 b2 : Bool) (df : Df)
    (columns : List String) (means : List ℚ) :
    variancePerDataStation ⟨minRows, allowed, deny, t, b1⟩ df columns means =
      variancePerDataStation ⟨minRows, allowed, deny, t, b2⟩ df columns means := rfl

/-- Counterexample to C7 as stated: with the variance-sharing switch off the
round-2 engine still returns an ordinary variance contribution (here the sum
of squared deviations `2` for column `a`), not a refusal/abstention
signal. -/
theorem c7_contribution_despite_switch_off :
    variancePerDataStation ⟨1, none, none, 5, false⟩
        ⟨3, [("a", .num [some 1, some 2, some 3])]⟩ ["a"] [2] =
      .ok [("a", 2)] := by
  norm_num [variancePerDataStation, checkPrivacy, Df.restrict, Df.lookupCol,
    Df.hasCol, Column.nonNullCount, Column.isNumericDtype, Column.numData,
    varianceContribution, nonMissing, List.filterMap_cons]

/-- C8 (amended): `_add_sd_to_results` evaluates
`(variance_sum / (count - 1)) ** 0.5` unconditionally; for a column with
global count ≤ 1 it therefore produces an IEEE artifact instead of an
"undefined" report: `+inf` for count 1 with a positive deviation sum, NaN
for count 1 with sum 0 or for count 0 with a positive sum, and `0` for
count 0 with sum 0 (the divisor being `-1`). -/
theorem c8_count_le_one_division_artifacts (varianceSum : ℚ) (count : ℕ)
    (hv : 0 ≤ varianceSum) (hc : count ≤ 1) :
    stdFromVarianceSum varianceSum count =
      if 0 < varianceSum then (if count = 1 then SqrtRes.posInf else SqrtRes.nanv)
      else (if count = 1 then SqrtRes.nanv else SqrtRes.sqrtVal 0) := by
  rcases Nat.le_one_iff_eq_zero_or_eq_one.mp hc with h | h <;> subst h <;>
    rcases eq_or_lt_of_le hv with heq | hpos
  · rw [← heq]
    norm_num [stdFromVarianceSum, pandasDiv, pandasSqrt]
  · have h1 : varianceSum / (((0:ℕ):ℚ) - 1) < 0 := by
      rw [div_neg_iff]
      left
      exact ⟨hpos, by push_cast; norm_num⟩
    simp only [stdFromVarianceSum, pandasDiv]
    rw [if_neg (show ¬(((0:ℕ):ℚ) - 1 = 0) by push_cast; norm_num)]
    simp only [pandasSqrt]
    rw [if_pos h1]
    simp [hpos]
  · rw [← heq]
    norm_num [stdFromVarianceSum, pandasDiv, pandasSqrt]
  · simp only [stdFromVarianceSum, pandasDiv]
    rw [if_pos (show ((1:ℕ):ℚ) - 1 = 0 by push_cast; norm_num), if_pos hpos]
    simp [pandasSqrt, hpos]

/-- Witness for C8 (amended) at deviation sum 3 and count 0. -/
theorem c8_count_le_one_division_artifacts_witness :
    (0:ℚ) ≤ 3 ∧ (0:ℕ) ≤ 1 ∧
      stdFromVarianceSum 3 0 =
        (if (0:ℚ) < 3 then (if (0:ℕ) = 1 then SqrtRes.posInf else SqrtRes.nanv)
         else (if (0:ℕ) = 1 then SqrtRes.nanv else SqrtRes.sqrtVal 0)) :=
  ⟨by norm_num, by norm_num, c8_count_le_one_division_artifacts 3 0 (by norm_num) (by norm_num)⟩

/-- Counterexample to C8 as stated: for a column with global count 1 and a
positive round-2 deviation sum, `_add_sd_to_results` divides by zero and
reports the standard deviation as `+inf` - a spurious numeric value, not an
"undefined" report. -/
theorem c8_infinite_std_for_count_one :
    addSdToResults [("a", ⟨1, some 5, some 5, 0, 5⟩)] [some [("a", 2)]] ["a"] =
      .ok [("a", SqrtRes.posInf)] := by
  norm_num [addSdToResults, varSumAllNodes, stdFromVarianceSum, pandasDiv, pandasSqrt,
    List.lookup, List.filterMap_cons]

lemma Column.castNumeric_isNumericDtype (v w : Column)
    (h : v.castNumeric = some w) : w.isNumericDtype = true := by
  cases v with
  | num l =>
    injection h with h2
    rw [← h2]
    rfl
  | cat l =>
    simp only [Column.castNumeric] at h
    split_ifs at h
    injection h with h2
    rw [← h2]
    rfl

lemma lookup_castMap (toCast : List String) (l : List (String × Column))
    (c : String) :
    List.lookup c (l.map (fun p =>
        if toCast.contains p.1 then (p.1, (p.2.castNumeric).getD p.2) else p)) =
      if toCast.contains c then
        Option.map (fun v => (v.castNumeric).getD v) (List.lookup c l)
      else List.lookup c l := by
  induction l with
  | nil => simp [List.lookup]
  | cons p rest ih =>
    obtain ⟨k, v⟩ := p
    simp only [List.map_cons]
    by_cases hck : c = k
    · subst hck
      by_cases hct : toCast.contains c
      · rw [if_pos hct, if_pos hct]
        simp [List.lookup]
      · rw [if_neg hct, if_neg hct]
        simp [List.lookup]
    · have hbeq : (c == k) = false := beq_eq_false_iff_ne.mpr hck
      by_cases hct : toCast.contains k
      · rw [if_pos hct]
        simp only [List.lookup, hbeq]
        exact ih
      · rw [if_neg hct]
        simp only [List.lookup, hbeq]
        exact ih

lemma castDfCols_promotes (df df2 : Df) (toCast : List String)
    (h : castDfCols df toCast = some df2) :
    ∀ c ∈ toCast, ∀ col, df2.lookupCol c = some col →
      col.isNumericDtype = true := by
  intro c hc col hcol
  unfold castDfCols at h
  split_ifs at h with hall
  · injection h with h2
    rw [← h2] at hcol
    simp only [Df.lookupCol] at hcol
    rw [lookup_castMap, if_pos (by simpa using hc)] at hcol
    obtain ⟨v, hv, hcv⟩ := Option.map_eq_some'.mp hcol
    have hc2 := List.all_eq_true.mp hall c hc
    rw [show df.lookupCol c = List.lookup c df.cols from rfl, hv] at hc2
    simp only [Option.some_bind] at hc2
    obtain ⟨w, hw⟩ := Option.isSome_iff_exists.mp (by simpa using hc2)
    have hcol2 : col = w := by
      rw [← hcv, hw]
      rfl
    rw [hcol2]
    exact Column.castNumeric_isNumericDtype v w hw

lemma mem_zip_self {α : Type} (l : List α) (p : α × α) (h : p ∈ l.zip l) :
    p.1 = p.2 := by
  induction l with
  | nil => cases h
  | cons a rest ih =>
    rcases List.mem_cons.mp h with h1 | h1
    · rw [h1]
    · exact ih h1

lemma wronglyNonNumericColumns_self (bs : List Bool) (cols : List String) :
    wronglyNonNumericColumns bs bs cols = [] := by
  unfold wronglyNonNumericColumns
  rw [List.filterMap_eq_nil_iff]
  intro p hp
  have h2 : p.2.1 = p.2.2 := mem_zip_self bs p.2 (List.of_mem_zip hp).2
  rw [if_neg]
  simp [h2]

/-- C9: hint reconciliation in round 1.  A hint list whose length differs
from the requested columns is fatal; when hints and inference agree the
frame passes through unchanged; hinted-numeric mismatches are cast, where
success promotes those columns to numeric dtype and failure is a fatal
`TypeMismatch` naming them; and any column hinted categorical but inferred
numeric always makes the call fatal with a `TypeMismatch` naming it, never a
silent narrowing. -/
theorem c9_hint_reconciliation :
    (∀ (isNumeric inferred : List Bool) (columns : List String) (df : Df),
      isNumeric.length ≠ columns.length →
      checkMatchInferredIsNumeric isNumeric inferred columns df =
        .error .lengthMismatch) ∧
    (∀ (isNumeric inferred : List Bool) (columns : List String) (df : Df),
      isNumeric.length = columns.length → isNumeric = inferred →
      checkMatchInferredIsNumeric isNumeric inferred columns df = .ok df) ∧
    (∀ (isNumeric inferred : List Bool) (columns : List String) (df df2 : Df),
      isNumeric.length = columns.length → isNumeric ≠ inferred →
      castDfCols df (wronglyNumericColumns isNumeric inferred columns) = some df2 →
      wronglyNonNumericColumns isNumeric inferred columns = [] →
      (checkMatchInferredIsNumeric isNumeric inferred columns df = .ok df2 ∧
        ∀ c ∈ wronglyNumericColumns isNumeric inferred columns,
          ∀ col, df2.lookupCol c = some col → col.isNumericDtype = true)) ∧
    (∀ (isNumeric inferred : List Bool) (columns : List String) (df : Df),
      isNumeric.length = columns.length → isNumeric ≠ inferred →
      castDfCols df (wronglyNumericColumns isNumeric inferred columns) = none →
      checkMatchInferredIsNumeric isNumeric inferred columns df =
        .error (.typeMismatch (wronglyNumericColumns isNumeric inferred columns)
          (wronglyNonNumericColumns isNumeric inferred columns))) ∧
    (∀ (isNumeric inferred : List Bool) (columns : List String) (df : Df),
      isNumeric.length = columns.length →
      wronglyNonNumericColumns isNumeric inferred columns ≠ [] →
      ∃ castFailed, checkMatchInferredIsNumeric isNumeric inferred columns df =
        .error (.typeMismatch castFailed
          (wronglyNonNumericColumns isNumeric inferred columns))) := by
  refine ⟨?_, ?_, ?_, ?_, ?_⟩
  · intro isNumeric inferred columns df h
    unfold checkMatchInferredIsNumeric
    rw [if_pos h]
  · intro isNumeric inferred columns df hlen heq
    unfold checkMatchInferredIsNumeric
    rw [if_neg (fun hn => hn hlen), if_pos heq]
  · intro isNumeric inferred columns df df2 hlen hne hcast hwnn
    constructor
    · unfold checkMatchInferredIsNumeric
      rw [if_neg (fun hn => hn hlen), if_neg hne, hcast]
      simp only []
      rw [if_pos (by simp [hwnn])]
    · exact castDfCols_promotes df df2 _ hcast
  · intro isNumeric inferred columns df hlen hne hcast
    unfold checkMatchInferredIsNumeric
    rw [if_neg (fun hn => hn hlen), if_neg hne, hcast]
  · intro isNumeric inferred columns df hlen hwnn
    have hne : isNumeric ≠ inferred := by
      intro he
      rw [he] at hwnn
      exact hwnn (wronglyNonNumericColumns_self inferred columns)
    unfold checkMatchInferredIsNumeric
    rw [if_neg (fun hn => hn hlen), if_neg hne]
    cases hcast : castDfCols df (wronglyNumericColumns isNumeric inferred columns) with
    | some dfc =>
      refine ⟨[], ?_⟩
      simp only []
      rw [if_neg (by simpa [List.isEmpty_iff] using hwnn)]
    | none => exact ⟨wronglyNumericColumns isNumeric inferred columns, rfl⟩

/-- Witness for C9: a mismatched hint length; a successful promotion of the
string column "x" (digits castable to numbers); and a categorical hint for
the numeric column "y". -/
theorem c9_hint_reconciliation_witness :
    (([true] : List Bool).length ≠ (["x", "y"] : List String).length ∧
      checkMatchInferredIsNumeric [true] [false] ["x", "y"] ⟨1, []⟩ =
        .error .lengthMismatch) ∧
    (([true] : List Bool).length = (["x"] : List String).length ∧
      ([true] : List Bool) ≠ [false] ∧
      castDfCols ⟨1, [("x", .cat [some ⟨"7", some 7⟩])]⟩
          (wronglyNumericColumns [true] [false] ["x"]) =
        some ⟨1, [("x", .num [some 7])]⟩ ∧
      wronglyNonNumericColumns [true] [false] ["x"] = [] ∧
      (checkMatchInferredIsNumeric [true] [false] ["x"]
            ⟨1, [("x", .cat [some ⟨"7", some 7⟩])]⟩ =
          .ok ⟨1, [("x", .num [some 7])]⟩ ∧
        ∀ c ∈ wronglyNumericColumns [true] [false] ["x"],
          ∀ col, Df.lookupCol ⟨1, [("x", .num [some 7])]⟩ c = some col →
            col.isNumericDtype = true)) ∧
    (([false] : List Bool).length = (["y"] : List String).length ∧
      wronglyNonNumericColumns [false] [true] ["y"] ≠ [] ∧
      ∃ castFailed,
        checkMatchInferredIsNumeric [false] [true] ["y"] ⟨1, [("y", .num [some 1])]⟩ =
          .error (.typeMismatch castFailed
            (wronglyNonNumericColumns [false] [true] ["y"]))) :=
  ⟨⟨by decide, c9_hint_reconciliation.1 [true] [false] ["x", "y"] ⟨1, []⟩ (by decide)⟩,
    ⟨by decide, by decide, by decide, by decide,
      c9_hint_reconciliation.2.2.1 [true] [false] ["x"]
        ⟨1, [("x", .cat [some ⟨"7", some 7⟩])]⟩ ⟨1, [("x", .num [some 7])]⟩
        (by decide) (by decide) (by decide) (by decide)⟩,
    ⟨by decide, by decide,
      c9_hint_reconciliation.2.2.2.2 [false] [true] ["y"] ⟨1, [("y", .num [some 1])]⟩
        (by decide) (by decide)⟩⟩

/-- C10: calling the central `summary` with non-empty `columns` and
`numeric_columns` where the latter is not a subset of the former fails with
`InputError` naming exactly the columns outside the subset, whatever the
node responses are - i.e. before any subtask result is consumed. -/
theorem c10_numeric_columns_subset_check (columns numericColumns : List String)
    (round1 : List (Option NodeSummary))
    (round2 : List (Option (List (String × ℚ))))
    (hc : columns ≠ []) (hn : numericColumns ≠ [])
    (hsub : ¬ ∀ c ∈ numericColumns, c ∈ columns) :
    summaryCentral (some columns) (some numericColumns) round1 round2 =
      .error (.inputSubset (numericNotInColumns columns numericColumns)) := by
  have h1 : columns.isEmpty = false := by simpa [List.isEmpty_iff] using hc
  have h2 : numericColumns.isEmpty = false := by simpa [List.isEmpty_iff] using hn
  have h3 : numericColumns.all columns.contains = false := by
    apply Bool.eq_false_iff.mpr
    intro hall
    exact hsub (fun c hcm => by simpa using List.all_eq_true.mp hall c hcm)
  have hchk : summaryInputCheck (some columns) (some numericColumns) =
      .error (.inputSubset (numericNotInColumns columns numericColumns)) := by
    simp only [summaryInputCheck]
    rw [h1, h2, h3]
    simp
  unfold summaryCentral
  rw [hchk]

/-- Witness for C10: requesting `numeric_columns = ["b"]` with
`columns = ["a"]`. -/
theorem c10_numeric_columns_subset_check_witness :
    (["a"] : List String) ≠ [] ∧ (["b"] : List String) ≠ [] ∧
      ¬(∀ c ∈ (["b"] : List String), c ∈ (["a"] : List String)) ∧
      summaryCentral (some ["a"]) (some ["b"]) [] [] =
        .error (.inputSubset (numericNotInColumns ["a"] ["b"])) :=
  ⟨by decide, by decide, by decide,
    c10_numeric_columns_subset_check ["a"] ["b"] [] [] (by decide) (by decide) (by decide)⟩
